import Mathlib

/-!
# Verification of the pygogo log-routing core

A shallow embedding of `pygogo/__init__.py` (the `Gogo` router class) together
with the sink factories of `gogo/handlers.py` and the parts of the Python
standard `logging` machinery the router relies on (level constants, handler
dispatch).  The helper modules `pygogo.utils` (LogFilter, structured filter,
StructuredAdapter) and `pygogo.formatters` are not part of the sources at hand;
their behaviour is modelled from the specification and each such definition is
marked `Modelled from the spec:` in its doc comment.

Severity levels are the integer ranks of the Python `logging` module
(DEBUG = 10 < INFO = 20 < WARNING = 30 < ERROR = 40 < CRITICAL = 50).
-/

namespace Pygogo

/-- The opaque output sink wrapped by a handler.  `gogo/handlers.py` builds
stream handlers over `sys.stdout` / `sys.stderr`; any other sink is opaque. -/
inductive Sink
  | stdout
  | stderr
  | custom (id : Nat)
deriving DecidableEq

/-- A log formatter.  `pygogo.formatters.basic_formatter` is the shared default;
any user-supplied `logging.Formatter` is opaque.  Formatters are pure and never
mutated, so an opaque tag is a faithful model. -/
inductive Formatter
  | basic
  | custom (id : Nat)
deriving DecidableEq

/-- A handler filter.  Both constructors model classes of `pygogo.utils`,
which is not among the sources; they are modelled from the spec (§4.3, §4.4). -/
inductive LFilter
  | logFilter (highLevel : Nat)
  | structured (fields : List (String × String))
deriving DecidableEq

/-- Modelled from the spec: `pygogo.utils.LogFilter` (module not under the
sources), the monolog filter of §4.3.  Attached to the low-pass handler it
"blocks it at ≥ highLevel" (spec §4.3 routing table), i.e. it admits a record
iff the record's severity rank is below the stored high level.
`pygogo.utils.get_structured_filter` (§4.4) injects the declared fields into
the record and admits every record, so as a predicate it is constantly true. -/
def LFilter.accepts : LFilter → Nat → Bool
  | .logFilter highLevel, s => decide (s < highLevel)
  | .structured _, _ => true

/-- A `logging.Handler`: an opaque sink plus the attached severity threshold
(`level`, default NOTSET = 0), formatter and filter list. -/
structure Handler where
  sink : Sink
  level : Nat := 0
  formatter : Option Formatter := none
  filters : List LFilter := []
deriving DecidableEq

/-- `gogo.handlers.stdout_hdlr`: a plain `logging.StreamHandler(sys.stdout)`
(level NOTSET, no filters, no formatter). -/
def stdout_hdlr : Handler := { sink := .stdout }

/-- `gogo.handlers.stderr_hdlr`: a plain `logging.StreamHandler(sys.stderr)`. -/
def stderr_hdlr : Handler := { sink := .stderr }

/-- The integer level constants of the Python `logging` module, as reached by
`getattr(logging, name, None)` for the all-upper-case names produced by
`name.upper()` in `Gogo.__init__`.  These are the only all-upper-case
attributes of the module whose value is an `int`. -/
def loggingLevelAttr : String → Option Nat
  | "CRITICAL" => some 50
  | "FATAL" => some 50
  | "ERROR" => some 40
  | "WARNING" => some 30
  | "WARN" => some 30
  | "INFO" => some 20
  | "DEBUG" => some 10
  | "NOTSET" => some 0
  | _ => none

/-- Python `name.upper()` (ASCII upper-casing, character by character), as
applied to the severity-name arguments. -/
def pyUpper (s : String) : String := ⟨s.data.map Char.toUpper⟩

/-- Python `s or d` for an optional string argument: `None` and the empty
string are falsy and fall back to the default. -/
def strOr (s : Option String) (d : String) : String :=
  match s with
  | none => d
  | some t => if t = "" then d else t

/-- The errors `Gogo.__init__` raises (`ValueError` in the source; the spec's
`ConfigurationError`), distinguished by the three checks of the constructor. -/
inductive GogoError
  | invalidHighLevel
  | invalidLowLevel
  | highBelowLow
deriving DecidableEq

/-- The constructor arguments of `Gogo.__init__` and their defaults.  A `none`
stands for an argument that was not passed (or passed as `None`). -/
structure GogoArgs where
  name : String := "root"
  high_level : Option String := none
  low_level : Option String := none
  verbose : Option Bool := none
  monolog : Bool := false
  high_hdlr : Option Handler := none
  low_hdlr : Option Handler := none
  high_formatter : Option Formatter := none
  low_formatter : Option Formatter := none

/-- The state of a constructed `Gogo` router. -/
structure Gogo where
  name : String
  high_level : Nat
  low_level : Nat
  monolog : Bool := false
  high_hdlr : Option Handler := none
  low_hdlr : Option Handler := none
  high_formatter : Option Formatter := none
  low_formatter : Option Formatter := none
  /-- `self.loggers`, the set of already wired derived names; starts empty. -/
  loggers : List String := []

/-- `Gogo.__init__`: resolve the default/`verbose` rules for the two level
names, turn them into integer ranks via the `logging` module's attributes,
and validate; on success produce the router state with an empty name set. -/
def mkGogo (a : GogoArgs) : Except GogoError Gogo :=
  let high_level := strOr a.high_level "warning"
  let low_level :=
    match a.verbose with
    | none => strOr a.low_level "debug"
    | some true => "debug"
    | some false => "info"
  match loggingLevelAttr (pyUpper high_level) with
  | none => .error .invalidHighLevel
  | some hi =>
    match loggingLevelAttr (pyUpper low_level) with
    | none => .error .invalidLowLevel
    | some lo =>
      if hi ≥ lo then
        .ok { name := a.name, high_level := hi, low_level := lo,
              monolog := a.monolog, high_hdlr := a.high_hdlr,
              low_hdlr := a.low_hdlr, high_formatter := a.high_formatter,
              low_formatter := a.low_formatter, loggers := [] }
      else .error .highBelowLow

/-- `Gogo.copy_hdlr`: `copy(hdlr)` followed by `copied.filters =
map(copy, hdlr.filters)`.  In the pure value model the copy is the same
value; the aliasing consequences are modelled separately (heap model below). -/
def Gogo.copy_hdlr (_g : Gogo) (h : Handler) : Handler :=
  { h with filters := h.filters.map id }

/-- `Gogo.update_hdlr`: set the handler's threshold, attach the monolog
filter when `monolog` is true, attach a structured filter when keyword
arguments were supplied, and set the formatter (default: basic formatter). -/
def Gogo.update_hdlr (g : Gogo) (h : Handler) (level : Nat)
    (formatter : Option Formatter) (monolog : Bool)
    (kwargs : List (String × String)) : Handler :=
  let fmtr := formatter.getD .basic
  let h1 := { h with level := level }
  let h2 :=
    if monolog then
      { h1 with filters := h1.filters ++ [LFilter.logFilter g.high_level] }
    else h1
  let h3 :=
    if kwargs.isEmpty then h2
    else { h2 with filters := h2.filters ++ [LFilter.structured kwargs] }
  { h3 with formatter := some fmtr }

/-- `Gogo.zip`: pair up (handler, level, formatter, monolog flag) for the
high-pass and low-pass slots, substituting the default stderr/stdout stream
handlers for unset slots.  The `fmtrs` parameter is ignored: the source
immediately shadows it with `[self.high_formatter, self.low_formatter]`. -/
def Gogo.zip (g : Gogo) (_fmtrs : List (Option Formatter)) :
    List (Handler × Nat × Option Formatter × Bool) :=
  let self_hdlrs := [g.high_hdlr, g.low_hdlr]
  let def_hdlrs := [stderr_hdlr, stdout_hdlr]
  let hdlrs := List.zipWith (fun s d => s.getD d) self_hdlrs def_hdlrs
  let levels := [g.high_level, g.low_level]
  let fmtrs' := [g.high_formatter, g.low_formatter]
  let monologs := [false, g.monolog]
  List.zip hdlrs (List.zip levels (List.zip fmtrs' monologs))

/-- The state of one `logging.Logger` object: its own threshold and the
attached handlers (in attachment order). -/
structure PyLogger where
  level : Nat := 0
  handlers : List Handler := []
deriving DecidableEq

/-- The process-global logger registry of the `logging` module, keyed by the
(derived) logger name. -/
abbrev Registry := List (String × PyLogger)

/-- Look a logger up in the registry (a fresh logger has no handlers and
level NOTSET = 0). -/
def Registry.getLogger (reg : Registry) (n : String) : PyLogger :=
  (reg.lookup n).getD {}

/-- `logging.getLogger(n)` registers a fresh logger on first use. -/
def Registry.ensure (reg : Registry) (n : String) : Registry :=
  if (reg.lookup n).isSome then reg else (n, ({} : PyLogger)) :: reg

/-- The derived name `'%s.%s' % (self.name, name)` used by `get_logger`. -/
def Gogo.derivedName (g : Gogo) (name : String) : String :=
  g.name ++ "." ++ name

/-- Python `kwargs['name'] = v`: replace the value in place when the key is
present, append the binding otherwise. -/
def kwSet (l : List (String × String)) (k v : String) :
    List (String × String) :=
  if (l.lookup k).isSome then
    l.map (fun p => if p.1 = k then (k, v) else p)
  else l ++ [(k, v)]

/-- The keyword arguments `get_logger` passes on to `update_hdlr`: when any
were supplied, `kwargs['name']` is set to the derived logger name first. -/
def Gogo.loggerKwargs (g : Gogo) (name : String)
    (kwargs : List (String × String)) : List (String × String) :=
  if kwargs.isEmpty then kwargs else kwSet kwargs "name" (g.derivedName name)

/-- The two handlers `get_logger` wires for one named logger: for each slot of
`Gogo.zip`, copy the configured handler and update the copy. -/
def Gogo.plainWiring (g : Gogo) (kwargs : List (String × String)) :
    List Handler :=
  (g.zip [g.high_formatter, g.low_formatter]).map
    (fun z => g.update_hdlr (g.copy_hdlr z.1) z.2.1 z.2.2.1 z.2.2.2 kwargs)

/-- Attach freshly wired handlers to a logger and set the logger's own
threshold to the router's low level (`logger.setLevel(self.low_level)`). -/
def Gogo.wireInto (g : Gogo) (logger : PyLogger) (hdlrs : List Handler) :
    PyLogger :=
  { logger with handlers := logger.handlers ++ hdlrs, level := g.low_level }

/-- `Gogo.get_logger`: fetch the logger registered under the derived name; on
the first request for that name, record the name and attach wired copies of
the high-pass and low-pass handlers.  Returns the updated router state, the
updated global registry and the name identifying the returned logger. -/
def Gogo.get_logger (g : Gogo) (reg : Registry) (name : String)
    (kwargs : List (String × String)) : Gogo × Registry × String :=
  let lggr_name := g.derivedName name
  let reg1 := reg.ensure lggr_name
  if lggr_name ∈ g.loggers then (g, reg1, lggr_name)
  else
    let g' := { g with loggers := lggr_name :: g.loggers }
    let logger' := g.wireInto (reg1.getLogger lggr_name)
      (g.plainWiring (g.loggerKwargs name kwargs))
    (g', (lggr_name, logger') :: reg1, lggr_name)

/-- An injective numeric code of a string (base 1114113 over the character
codes, which are below 1114112 by unicode validity).  Used as the sort key of
the canonical serialization and as the building block of the digest model. -/
def strN (s : String) : Nat :=
  s.data.foldr (fun c acc => (c.toNat + 1) + 1114113 * acc) 0

/-- Key order for the canonical serialization of a context mapping. -/
def keyLE (p q : String × String) : Prop := strN p.1 ≤ strN q.1

instance : DecidableRel keyLE := fun p q =>
  inferInstanceAs (Decidable (strN p.1 ≤ strN q.1))

instance : IsTotal (String × String) keyLE := ⟨fun p q => Nat.le_total (strN p.1) (strN q.1)⟩

instance : IsTrans (String × String) keyLE := ⟨fun _ _ _ => Nat.le_trans⟩

/-- Strict key order, used to show the canonical enumeration is unique. -/
def keyLT (p q : String × String) : Prop := strN p.1 < strN q.1

instance : IsAntisymm (String × String) keyLT :=
  ⟨fun _ _ h1 h2 => absurd h2 (Nat.lt_asymm h1)⟩

/-- `frozenset(kwargs.iteritems())`: the unordered collection of the context's
key/value pairs, modelled by its canonical (key-sorted) enumeration — a
function of the contents alone for mappings with distinct keys. -/
def pyFrozenset (l : List (String × String)) : List (String × String) :=
  List.insertionSort keyLE l

/-- An injective numeric code of one key/value pair. -/
def pairN (p : String × String) : Nat := Nat.pair (strN p.1) (strN p.2)

/-- An injective numeric code of a list of key/value pairs. -/
def ctxN : List (String × String) → Nat
  | [] => 0
  | p :: t => Nat.pair (pairN p) (ctxN t) + 1

/-- Little-endian decimal digits of `n`, with an explicit fuel argument that
keeps the recursion structural (the value never exceeds the fuel). -/
def natDigitsAux : Nat → Nat → List Char
  | 0, _ => []
  | _ + 1, 0 => []
  | fuel + 1, n + 1 => Nat.digitChar ((n + 1) % 10) :: natDigitsAux fuel ((n + 1) / 10)

/-- The decimal-digit string of a natural number (empty for 0). -/
def natDigitStr (n : Nat) : String := ⟨natDigitsAux n n⟩

/-- Modelled from the spec: `hashlib.md5(str(values)).hexdigest()` over the
frozenset of context items (`pygogo.utils` collaborator `hashlib` is outside
the sources).  The spec (§4.5, §9) requires a stable hash of a canonical
serialization, "guaranteeing identical context maps always derive the same
name"; the digest is modelled as an injective stable function of the
canonical enumeration. -/
def md5_hexdigest (values : List (String × String)) : String :=
  natDigitStr (ctxN values)

/-- The derived name `'%s.structured.%s' % (self.name, name)` of
`get_structured_logger`, with the digest of the context standing in when no
name (or an empty name) was supplied. -/
def Gogo.structuredName (g : Gogo) (name : Option String)
    (kwargs : List (String × String)) : String :=
  g.name ++ ".structured." ++ strOr name (md5_hexdigest (pyFrozenset kwargs))

/-- The handlers `get_structured_logger` wires: identical loop to
`get_logger`, called with `zip(formatter, formatter)` for the basic formatter
and without structured keyword arguments. -/
def Gogo.structuredWiring (g : Gogo) : List Handler :=
  (g.zip [some .basic, some .basic]).map
    (fun z => g.update_hdlr (g.copy_hdlr z.1) z.2.1 z.2.2.1 z.2.2.2 [])

/-- Modelled from the spec: `pygogo.utils.StructuredAdapter` (module not under
the sources) — a wrapper holding the wired logger and the fixed base context
(§4.5).  The logger is identified by its registry name. -/
structure StructuredAdapter where
  loggerName : String
  extra : List (String × String)
deriving DecidableEq

/-- `Gogo.get_structured_logger`: derive the name (digest of the context when
none is given), wire the logger exactly as `get_logger` would on first
request for that name, and return a structured adapter over it. -/
def Gogo.get_structured_logger (g : Gogo) (reg : Registry)
    (name : Option String) (kwargs : List (String × String)) :
    Gogo × Registry × StructuredAdapter :=
  let lggr_name := g.structuredName name kwargs
  let reg1 := reg.ensure lggr_name
  if lggr_name ∈ g.loggers then
    (g, reg1, ⟨lggr_name, kwargs⟩)
  else
    let g' := { g with loggers := lggr_name :: g.loggers }
    let logger' := g.wireInto (reg1.getLogger lggr_name) g.structuredWiring
    (g', (lggr_name, logger') :: reg1, ⟨lggr_name, kwargs⟩)

/-- Modelled from the spec: the merged structured record a
`StructuredAdapter` emission serializes (`pygogo.utils` is not under the
sources).  Field order is base context, then the reserved `message` key,
then the call-time extra fields not already named by the base context
(§3, §6); on a key collision the call-time extra value overrides the base
value, and neither base nor extra overrides `message` (§4.4). -/
def mergeStructured (base : List (String × String)) (msg : String)
    (extra : List (String × String)) : List (String × String) :=
  let base' := base.filter (fun p => p.1 ≠ "message")
  let extra' := extra.filter (fun p => p.1 ≠ "message")
  base'.map (fun p => (p.1, (extra'.lookup p.1).getD p.2))
    ++ [("message", msg)]
    ++ extra'.filter (fun p => (base'.lookup p.1).isNone)

/-- Python `logging` dispatch, specialised to a handler attached to the logger
an event is emitted on: the record reaches the handler iff the record's rank
passes the logger's own threshold (`Logger.isEnabledFor`, for a logger whose
level is set) and the handler's threshold, and every handler filter admits
it.  (The wired loggers have a positive explicit level, so the effective
level is their own.) -/
def Handler.receives (h : Handler) (loggerLevel s : Nat) : Bool :=
  decide (loggerLevel ≤ s) && decide (h.level ≤ s) &&
    h.filters.all (fun f => f.accepts s)

/-!
## Heap model of handler copying

The pure model above treats a handler's filter list as a value.  To settle the
frame property of `copy_hdlr` — that the mutable filter-list object of the
router's configured handler is never shared with a wired logger — the wiring
loop is modelled once more with the filter list held in an explicit heap of
mutable cells, mirroring the Python object graph: `copy(hdlr)` is a shallow
copy (the cell reference is shared), and the subsequent
`copied_hdlr.filters = map(copy, hdlr.filters)` re-points the copy at a
freshly allocated cell holding copies of the entries.
-/

/-- A handler whose filter list lives in a heap cell. -/
structure HHandler where
  sink : Sink
  level : Nat := 0
  formatter : Option Formatter := none
  filtersRef : Nat
deriving DecidableEq

/-- The heap of filter-list cells. -/
structure FilterHeap where
  cells : List (List LFilter)
deriving DecidableEq

/-- Read a cell. -/
def FilterHeap.read (st : FilterHeap) (r : Nat) : List LFilter :=
  st.cells.getD r []

/-- Allocate a fresh cell and return its reference. -/
def FilterHeap.alloc (st : FilterHeap) (fs : List LFilter) :
    FilterHeap × Nat :=
  (⟨st.cells ++ [fs]⟩, st.cells.length)

/-- Overwrite a cell in place. -/
def FilterHeap.write (st : FilterHeap) (r : Nat) (fs : List LFilter) :
    FilterHeap :=
  ⟨st.cells.set r fs⟩

/-- `Gogo.copy_hdlr` in the heap model: `copy(hdlr)` shares the filter cell,
then `copied_hdlr.filters = map(copy, hdlr.filters)` re-points the copy at a
fresh cell containing copies of the filter objects. -/
def copyHdlrH (st : FilterHeap) (h : HHandler) : FilterHeap × HHandler :=
  let copied := h
  let (st1, r) := st.alloc ((st.read h.filtersRef).map id)
  (st1, { copied with filtersRef := r })

/-- `Gogo.update_hdlr` in the heap model: set the level, append the monolog
and structured filters to the handler's own cell, set the formatter. -/
def updateHdlrH (g : Gogo) (st : FilterHeap) (h : HHandler) (level : Nat)
    (formatter : Option Formatter) (monolog : Bool)
    (kwargs : List (String × String)) : FilterHeap × HHandler :=
  let fmtr := formatter.getD .basic
  let h1 := { h with level := level }
  let st1 :=
    if monolog then
      st.write h1.filtersRef
        (st.read h1.filtersRef ++ [LFilter.logFilter g.high_level])
    else st
  let st2 :=
    if kwargs.isEmpty then st1
    else st1.write h1.filtersRef
      (st1.read h1.filtersRef ++ [LFilter.structured kwargs])
  (st2, { h1 with formatter := some fmtr })

/-- One slot of the wiring loop of `get_logger` in the heap model: copy the
configured handler, then update the copy. -/
def wireOneH (g : Gogo) (st : FilterHeap) (h : HHandler) (level : Nat)
    (formatter : Option Formatter) (monolog : Bool)
    (kwargs : List (String × String)) : FilterHeap × HHandler :=
  let (st1, copied) := copyHdlrH st h
  updateHdlrH g st1 copied level formatter monolog kwargs

/-- The full wiring loop of `get_logger` for one named logger in the heap
model: wire a copy of the high-pass handler, then of the low-pass handler,
threading the heap. -/
def wireLoggerH (g : Gogo) (st : FilterHeap) (hi lo : HHandler)
    (kwargs : List (String × String)) : FilterHeap × HHandler × HHandler :=
  let (st1, hi') := wireOneH g st hi g.high_level g.high_formatter false kwargs
  let (st2, lo') := wireOneH g st1 lo g.low_level g.low_formatter g.monolog kwargs
  (st2, hi', lo')

/-!
## Helper lemmas
-/

theorem lookup_cons_self {β : Type} (k : String) (v : β)
    (t : List (String × β)) : ((k, v) :: t).lookup k = some v := by
  simp [List.lookup]

theorem getLogger_cons_self (reg : Registry) (n : String) (l : PyLogger) :
    Registry.getLogger ((n, l) :: reg) n = l := by
  simp [Registry.getLogger, List.lookup]

/-- `get_logger` on a derived name the router has not seen and the registry
does not hold: record the name, register the freshly wired logger. -/
theorem get_logger_fresh (g : Gogo) (reg : Registry) (name : String)
    (kwargs : List (String × String))
    (hfresh : g.derivedName name ∉ g.loggers)
    (hreg : reg.lookup (g.derivedName name) = none) :
    g.get_logger reg name kwargs =
      ({ g with loggers := g.derivedName name :: g.loggers },
       (g.derivedName name,
         { level := g.low_level,
           handlers := g.plainWiring (g.loggerKwargs name kwargs) }) ::
         (g.derivedName name, ({} : PyLogger)) :: reg,
       g.derivedName name) := by
  unfold Gogo.get_logger Registry.ensure Gogo.wireInto
  simp [hreg, hfresh, Registry.getLogger, List.lookup]

/-- The two wired handlers of `get_logger`, in zip order (high-pass first). -/
theorem plainWiring_eq (g : Gogo) (kwargs : List (String × String)) :
    g.plainWiring kwargs =
      [g.update_hdlr (g.copy_hdlr (g.high_hdlr.getD stderr_hdlr))
         g.high_level g.high_formatter false kwargs,
       g.update_hdlr (g.copy_hdlr (g.low_hdlr.getD stdout_hdlr))
         g.low_level g.low_formatter g.monolog kwargs] := by
  simp [Gogo.plainWiring, Gogo.zip, List.zipWith]

theorem update_hdlr_level (g : Gogo) (h : Handler) (level : Nat)
    (fmtr : Option Formatter) (monolog : Bool)
    (kwargs : List (String × String)) :
    (g.update_hdlr h level fmtr monolog kwargs).level = level := by
  unfold Gogo.update_hdlr
  by_cases hm : monolog <;> by_cases hk : kwargs.isEmpty <;> simp [hm, hk]

/-- Dispatch through a handler wired from a filter-free configured handler:
the record passes iff it clears the logger threshold, the handler threshold,
and — when the monolog filter was attached — stays below the high level. -/
theorem receives_update (g : Gogo) (h : Handler) (level : Nat)
    (fmtr : Option Formatter) (monolog : Bool)
    (kwargs : List (String × String)) (ll s : Nat)
    (hh : h.filters = []) :
    (g.update_hdlr (g.copy_hdlr h) level fmtr monolog kwargs).receives ll s =
      (decide (ll ≤ s) && decide (level ≤ s) &&
        (!monolog || decide (s < g.high_level))) := by
  unfold Gogo.update_hdlr Gogo.copy_hdlr Handler.receives
  by_cases hm : monolog <;> by_cases hk : kwargs.isEmpty <;>
    simp [hm, hk, hh, LFilter.accepts]

/-!
## Claim theorems
-/

/-- C1.  Non-monolog severity routing: for a router with `monolog` unset or
false whose configured handlers carry no pre-existing filters, a logger it
wires holds the high-pass and the low-pass handler, and an event of rank `s`
reaches neither when `s` is below the low level, only the low-pass handler
when it lies in `[lowLevel, highLevel)`, and both when it is at or above the
high level. -/
theorem routing_non_monolog (g : Gogo) (reg : Registry) (name : String)
    (kwargs : List (String × String)) (s : Nat)
    (hmono : g.monolog = false)
    (hlh : g.low_level ≤ g.high_level)
    (_hlpos : 0 < g.low_level)
    (hhf : (g.high_hdlr.getD stderr_hdlr).filters = [])
    (hlf : (g.low_hdlr.getD stdout_hdlr).filters = [])
    (hfresh : g.derivedName name ∉ g.loggers)
    (hreg : reg.lookup (g.derivedName name) = none) :
    ∃ hi lo,
      (Registry.getLogger (g.get_logger reg name kwargs).2.1
          (g.derivedName name)).handlers = [hi, lo] ∧
      (Registry.getLogger (g.get_logger reg name kwargs).2.1
          (g.derivedName name)).level = g.low_level ∧
      (s < g.low_level →
        hi.receives g.low_level s = false ∧ lo.receives g.low_level s = false) ∧
      (g.low_level ≤ s → s < g.high_level →
        lo.receives g.low_level s = true ∧ hi.receives g.low_level s = false) ∧
      (g.high_level ≤ s →
        lo.receives g.low_level s = true ∧ hi.receives g.low_level s = true) := by
  rw [get_logger_fresh g reg name kwargs hfresh hreg]
  rw [getLogger_cons_self, plainWiring_eq]
  refine ⟨_, _, rfl, rfl, ?_, ?_, ?_⟩ <;>
    rw [receives_update g _ _ _ _ _ _ _ hlf, receives_update g _ _ _ _ _ _ _ hhf] <;>
    rw [hmono] <;> intros <;> constructor <;> simp <;> omega

/-- C1 witness: a concrete non-monolog router (levels 10/30, default
handlers), a fresh name, an event at rank 20. -/
theorem routing_non_monolog_witness :
    ∃ hi lo,
      (Registry.getLogger
          ((Gogo.get_logger { name := "root", high_level := 30, low_level := 10 }
            [] "base" []).2.1) (Gogo.derivedName { name := "root", high_level := 30, low_level := 10 } "base")).handlers = [hi, lo] ∧
      (Registry.getLogger
          ((Gogo.get_logger { name := "root", high_level := 30, low_level := 10 }
            [] "base" []).2.1) (Gogo.derivedName { name := "root", high_level := 30, low_level := 10 } "base")).level = 10 ∧
      ((20 : Nat) < 10 →
        hi.receives 10 20 = false ∧ lo.receives 10 20 = false) ∧
      ((10 : Nat) ≤ 20 → (20 : Nat) < 30 →
        lo.receives 10 20 = true ∧ hi.receives 10 20 = false) ∧
      ((30 : Nat) ≤ 20 →
        lo.receives 10 20 = true ∧ hi.receives 10 20 = true) :=
  routing_non_monolog { name := "root", high_level := 30, low_level := 10 }
    [] "base" [] 20 rfl (by decide) (by decide) rfl rfl (by decide) rfl

/-- C2.  Monolog exclusivity: for a router constructed with `monolog = true`
(configured handlers filter-free), a logger it wires delivers every event of
rank at least the low level to exactly one of the two handlers — the
low-pass one exactly when the rank is below the high level, the high-pass
one exactly when it is at or above it, never both. -/
theorem monolog_exclusive (g : Gogo) (reg : Registry) (name : String)
    (kwargs : List (String × String)) (s : Nat)
    (hmono : g.monolog = true)
    (_hlh : g.low_level ≤ g.high_level)
    (_hlpos : 0 < g.low_level)
    (hhf : (g.high_hdlr.getD stderr_hdlr).filters = [])
    (hlf : (g.low_hdlr.getD stdout_hdlr).filters = [])
    (hfresh : g.derivedName name ∉ g.loggers)
    (hreg : reg.lookup (g.derivedName name) = none)
    (hs : g.low_level ≤ s) :
    ∃ hi lo,
      (Registry.getLogger (g.get_logger reg name kwargs).2.1
          (g.derivedName name)).handlers = [hi, lo] ∧
      (lo.receives g.low_level s = true ↔ s < g.high_level) ∧
      (hi.receives g.low_level s = true ↔ g.high_level ≤ s) ∧
      ¬(lo.receives g.low_level s = true ∧ hi.receives g.low_level s = true) ∧
      (lo.receives g.low_level s = true ∨ hi.receives g.low_level s = true) := by
  rw [get_logger_fresh g reg name kwargs hfresh hreg]
  rw [getLogger_cons_self, plainWiring_eq]
  refine ⟨_, _, rfl, ?_, ?_, ?_, ?_⟩ <;>
    simp only [receives_update g _ _ _ _ _ _ _ hlf,
      receives_update g _ _ _ _ _ _ _ hhf, hmono] <;>
    simp <;> omega

/-- C2 witness: a concrete monolog router (levels 10/30, default handlers),
a fresh name, an event at rank 40. -/
theorem monolog_exclusive_witness :
    ∃ hi lo,
      (Registry.getLogger
          ((Gogo.get_logger
            { name := "root", high_level := 30, low_level := 10, monolog := true }
            [] "base" []).2.1)
          (Gogo.derivedName
            { name := "root", high_level := 30, low_level := 10, monolog := true }
            "base")).handlers = [hi, lo] ∧
      (lo.receives 10 40 = true ↔ (40 : Nat) < 30) ∧
      (hi.receives 10 40 = true ↔ (30 : Nat) ≤ 40) ∧
      ¬(lo.receives 10 40 = true ∧ hi.receives 10 40 = true) ∧
      (lo.receives 10 40 = true ∨ hi.receives 10 40 = true) :=
  monolog_exclusive
    { name := "root", high_level := 30, low_level := 10, monolog := true }
    [] "base" [] 40 rfl (by decide) (by decide) rfl rfl (by decide) rfl (by decide)

/-- A second call for a derived name the router already knows (and the
registry holds) changes nothing and returns the same logger name. -/
theorem get_logger_already_known (g : Gogo) (reg : Registry) (name : String)
    (kwargs : List (String × String))
    (h : g.derivedName name ∈ g.loggers)
    (hr : (reg.lookup (g.derivedName name)).isSome) :
    g.get_logger reg name kwargs = (g, reg, g.derivedName name) := by
  unfold Gogo.get_logger Registry.ensure
  simp [h, hr]

/-- C3.  Attachment idempotence: on the first request for a fresh derived
name the router attaches exactly one high-pass and one low-pass handler, and
iterating the call any positive number of times produces the same router
state and registry as a single call, returning the same underlying logger
name each time. -/
theorem get_logger_idempotent (g : Gogo) (reg : Registry) (name : String)
    (kwargs : List (String × String)) (k : Nat)
    (hfresh : g.derivedName name ∉ g.loggers)
    (hreg : reg.lookup (g.derivedName name) = none) :
    (fun st : Gogo × Registry =>
        ((st.1.get_logger st.2 name kwargs).1,
         (st.1.get_logger st.2 name kwargs).2.1))^[k + 1] (g, reg) =
      (fun st : Gogo × Registry =>
        ((st.1.get_logger st.2 name kwargs).1,
         (st.1.get_logger st.2 name kwargs).2.1)) (g, reg) ∧
    (g.get_logger reg name kwargs).2.2 = g.derivedName name ∧
    ∃ hi lo,
      (Registry.getLogger (g.get_logger reg name kwargs).2.1
          (g.derivedName name)).handlers = [hi, lo] ∧
      hi.level = g.high_level ∧ lo.level = g.low_level := by
  set step := fun st : Gogo × Registry =>
    ((st.1.get_logger st.2 name kwargs).1,
     (st.1.get_logger st.2 name kwargs).2.1) with hstep
  have hfirst := get_logger_fresh g reg name kwargs hfresh hreg
  have hone : step (g, reg) =
      ({ g with loggers := g.derivedName name :: g.loggers },
       (g.derivedName name,
         { level := g.low_level,
           handlers := g.plainWiring (g.loggerKwargs name kwargs) }) ::
         (g.derivedName name, ({} : PyLogger)) :: reg) := by
    rw [hstep]; simp only [hfirst]
  have hfix : step (step (g, reg)) = step (g, reg) := by
    rw [hone]
    set g1 : Gogo := { g with loggers := g.derivedName name :: g.loggers } with hg1
    set reg1 : Registry :=
      (g.derivedName name,
        { level := g.low_level,
          handlers := g.plainWiring (g.loggerKwargs name kwargs) }) ::
        (g.derivedName name, ({} : PyLogger)) :: reg with hreg1
    have hm : g1.derivedName name ∈ g1.loggers := List.mem_cons_self _ _
    have hr : (reg1.lookup (g1.derivedName name)).isSome := by
      rw [hreg1]
      have : g1.derivedName name = g.derivedName name := rfl
      rw [this, lookup_cons_self]
      rfl
    rw [hstep]
    simp only [get_logger_already_known g1 reg1 name kwargs hm hr]
  have hiter : ∀ m : Nat, step^[m + 1] (g, reg) = step (g, reg) := by
    intro m
    induction m with
    | zero => simp
    | succ m ih => rw [Function.iterate_succ_apply', ih, hfix]
  refine ⟨hiter k, by rw [hfirst], ?_⟩
  rw [hfirst, getLogger_cons_self, plainWiring_eq]
  exact ⟨_, _, rfl, update_hdlr_level .., update_hdlr_level ..⟩

/-- C3 witness: two and three calls on a fresh default router coincide, with
one high-pass and one low-pass handler attached. -/
theorem get_logger_idempotent_witness :
    (fun st : Gogo × Registry =>
        ((st.1.get_logger st.2 "x" []).1,
         (st.1.get_logger st.2 "x" []).2.1))^[2 + 1]
        ({ name := "root", high_level := 30, low_level := 10 }, []) =
      (fun st : Gogo × Registry =>
        ((st.1.get_logger st.2 "x" []).1,
         (st.1.get_logger st.2 "x" []).2.1))
        ({ name := "root", high_level := 30, low_level := 10 }, []) ∧
    (Gogo.get_logger { name := "root", high_level := 30, low_level := 10 }
        [] "x" []).2.2 =
      Gogo.derivedName { name := "root", high_level := 30, low_level := 10 } "x" ∧
    ∃ hi lo,
      (Registry.getLogger
          (Gogo.get_logger { name := "root", high_level := 30, low_level := 10 }
            [] "x" []).2.1
          (Gogo.derivedName { name := "root", high_level := 30, low_level := 10 }
            "x")).handlers = [hi, lo] ∧
      hi.level = 30 ∧ lo.level = 10 :=
  get_logger_idempotent { name := "root", high_level := 30, low_level := 10 }
    [] "x" [] 2 (by decide) rfl

/-- Each returned `Option Nat` of `loggingLevelAttr` is `some` exactly on the
eight upper-case level names of the `logging` module. -/
theorem loggingLevelAttr_isSome_iff (u : String) :
    (loggingLevelAttr u).isSome = true ↔
      u ∈ ["DEBUG", "INFO", "WARN", "WARNING", "ERROR", "CRITICAL",
           "FATAL", "NOTSET"] := by
  unfold loggingLevelAttr
  split <;> simp_all

/-- C4.  Construction validation: for any two severity names the `logging`
module recognizes, router construction succeeds exactly when the high rank is
at least the low rank, and otherwise fails with the `high_level must be >=
low_level` configuration error, producing no router. -/
theorem construction_validation (hn ln : String) (rh rl : Nat)
    (hhn : loggingLevelAttr (pyUpper hn) = some rh)
    (hln : loggingLevelAttr (pyUpper ln) = some rl) :
    ((mkGogo { high_level := some hn, low_level := some ln }).isOk = true ↔
      rl ≤ rh) ∧
    (rh < rl →
      mkGogo { high_level := some hn, low_level := some ln } =
        .error .highBelowLow) := by
  have hne : hn ≠ "" := by
    intro h
    rw [h] at hhn
    exact Option.noConfusion (show (none : Option Nat) = some rh from hhn)
  have lne : ln ≠ "" := by
    intro h
    rw [h] at hln
    exact Option.noConfusion (show (none : Option Nat) = some rl from hln)
  unfold mkGogo strOr
  simp only [if_neg hne, if_neg lne, hhn, hln]
  constructor
  · by_cases h : rl ≤ rh <;> simp [h, Except.isOk, Except.toBool]
  · intro h
    rw [if_neg (by omega)]

/-- C4 witness: `("warning", "debug")` ranks 30/10 succeeds; the reversed
pair would fail (instantiated through the same theorem at `("debug",
"warning")` is not needed — the iff covers both directions at one input). -/
theorem construction_validation_witness :
    (((mkGogo { high_level := some "debug", low_level := some "warning" }).isOk
        = true ↔ (30 : Nat) ≤ 10) ∧
      ((10 : Nat) < 30 →
        mkGogo { high_level := some "debug", low_level := some "warning" } =
          .error .highBelowLow)) :=
  construction_validation "debug" "warning" 10 30 rfl rfl

/-- C5 counterexample: the string `"warn"` is not a case-insensitive spelling
of any of `debug`, `info`, `warning`, `error`, `critical`, yet router
construction with `high_level="warn"` succeeds instead of failing. -/
theorem severity_name_counterexample :
    (mkGogo { high_level := some "warn" }).isOk = true ∧
      ∀ c ∈ ["debug", "info", "warning", "error", "critical"],
        pyUpper "warn" ≠ pyUpper c := by
  decide

/-- C5 (amended).  Severity-name acceptance: a nonempty `high_level` string
passes the severity-name check iff its upper-casing is one of the eight
integer level constants of the `logging` module — `DEBUG`, `INFO`, `WARN`,
`WARNING`, `ERROR`, `CRITICAL`, `FATAL`, `NOTSET`; every other nonempty
string fails with the invalid-high-level configuration error at construction
time. -/
theorem severity_name_acceptance (s : String) (hs : s ≠ "") :
    (mkGogo { high_level := some s } ≠ .error .invalidHighLevel) ↔
      pyUpper s ∈ ["DEBUG", "INFO", "WARN", "WARNING", "ERROR", "CRITICAL",
                   "FATAL", "NOTSET"] := by
  rw [← loggingLevelAttr_isSome_iff]
  unfold mkGogo strOr
  simp only [if_neg hs]
  cases h : loggingLevelAttr (pyUpper s) with
  | none => simp [h]
  | some hi =>
    simp only [h, Option.isSome_some, iff_true]
    rw [show loggingLevelAttr (pyUpper "debug") = some 10 from rfl]
    by_cases hge : hi ≥ 10 <;> simp [hge]

/-- C5 witness for the amended claim: at `s = "warn"` the check passes. -/
theorem severity_name_acceptance_witness :
    ("warn" ≠ "") ∧
      ((mkGogo { high_level := some "warn" } ≠ .error .invalidHighLevel) ↔
        pyUpper "warn" ∈ ["DEBUG", "INFO", "WARN", "WARNING", "ERROR",
                          "CRITICAL", "FATAL", "NOTSET"]) :=
  ⟨by decide, severity_name_acceptance "warn" (by decide)⟩

/-- C8.  Structured/plain wiring equivalence: `get_structured_logger` builds
no sink handles of its own — its wiring loop produces exactly the handlers
the `get_logger` machinery produces for a context-free request (`Gogo.zip`
does not even depend on the formatters passed to it, since the source
shadows the parameter), so a structured and a plain logger under the same
derived name receive identical handlers, thresholds, formatters and
filters. -/
theorem structured_wiring_reuses_plain (g : Gogo) :
    g.structuredWiring = g.plainWiring [] ∧
    (∀ fmtrs fmtrs' : List (Option Formatter), g.zip fmtrs = g.zip fmtrs') ∧
    (∀ lg : PyLogger,
      g.wireInto lg g.structuredWiring = g.wireInto lg (g.plainWiring [])) :=
  ⟨rfl, fun _ _ => rfl, fun _ => rfl⟩

/-- Every router `Gogo.__init__` returns carries an empty known-name set. -/
theorem mkGogo_ok_loggers (a : GogoArgs) (g0 : Gogo)
    (h : mkGogo a = .ok g0) : g0.loggers = [] := by
  unfold mkGogo at h
  have step :
      ∀ low : String,
        (match loggingLevelAttr (pyUpper (strOr a.high_level "warning")) with
          | none => Except.error GogoError.invalidHighLevel
          | some hi =>
            match loggingLevelAttr (pyUpper low) with
            | none => Except.error GogoError.invalidLowLevel
            | some lo =>
              if hi ≥ lo then
                Except.ok ({ name := a.name, high_level := hi, low_level := lo,
                             monolog := a.monolog, high_hdlr := a.high_hdlr,
                             low_hdlr := a.low_hdlr,
                             high_formatter := a.high_formatter,
                             low_formatter := a.low_formatter,
                             loggers := [] } : Gogo)
              else Except.error GogoError.highBelowLow) = .ok g0 →
        g0.loggers = [] := by
    intro low hl
    cases h1 : loggingLevelAttr (pyUpper (strOr a.high_level "warning")) with
    | none =>
      simp only [h1] at hl
      exact Except.noConfusion hl
    | some hi =>
      simp only [h1] at hl
      cases h2 : loggingLevelAttr (pyUpper low) with
      | none =>
        simp only [h2] at hl
        exact Except.noConfusion hl
      | some lo =>
        simp only [h2] at hl
        split at hl
        · rw [← Except.ok.inj hl]
        · exact Except.noConfusion hl
  cases hv : a.verbose with
  | none =>
    rw [hv] at h
    exact step (strOr a.low_level "debug") h
  | some b =>
    rw [hv] at h
    cases b
    · exact step "info" h
    · exact step "debug" h

/-- `get_logger` on a name the router has not seen whose logger already sits
in the global registry: the wired handlers are appended to whatever the
registered logger already holds. -/
theorem get_logger_fresh_present (g : Gogo) (reg : Registry) (name : String)
    (kwargs : List (String × String)) (L : PyLogger)
    (hfresh : g.derivedName name ∉ g.loggers)
    (hreg : reg.lookup (g.derivedName name) = some L) :
    g.get_logger reg name kwargs =
      ({ g with loggers := g.derivedName name :: g.loggers },
       (g.derivedName name,
         g.wireInto L (g.plainWiring (g.loggerKwargs name kwargs))) :: reg,
       g.derivedName name) := by
  unfold Gogo.get_logger Registry.ensure
  simp [hreg, hfresh, Registry.getLogger]

/-- C10.  Idempotence is per router instance, not global: each freshly
constructed router starts with an empty known-name set, and only that set is
consulted before attachment, while the wired logger lives in the shared
global registry.  Two routers with the same name that each request the same
logger name therefore both attach a high/low handler pair to the one shared
logger, leaving it with two pairs (four handlers). -/
theorem per_router_idempotence (g1 g2 : Gogo) (reg : Registry) (name : String)
    (hname : g2.name = g1.name)
    (hf1 : g1.derivedName name ∉ g1.loggers)
    (hf2 : g2.derivedName name ∉ g2.loggers)
    (hreg : reg.lookup (g1.derivedName name) = none) :
    (Registry.getLogger
        (Gogo.get_logger g2 (g1.get_logger reg name []).2.1 name []).2.1
        (g1.derivedName name)).handlers =
      g1.plainWiring [] ++ g2.plainWiring [] ∧
    (Registry.getLogger
        (Gogo.get_logger g2 (g1.get_logger reg name []).2.1 name []).2.1
        (g1.derivedName name)).handlers.length = 4 ∧
    (∀ (a : GogoArgs) (g0 : Gogo), mkGogo a = .ok g0 → g0.loggers = []) := by
  have hd2 : g2.derivedName name = g1.derivedName name := by
    unfold Gogo.derivedName
    rw [hname]
  have hk1 : g1.loggerKwargs name [] = [] := rfl
  have hk2 : g2.loggerKwargs name [] = [] := rfl
  rw [get_logger_fresh g1 reg name [] hf1 hreg]
  have hlook :
      ((g1.derivedName name,
          ({ level := g1.low_level,
             handlers := g1.plainWiring (g1.loggerKwargs name []) } :
            PyLogger)) ::
        (g1.derivedName name, ({} : PyLogger)) :: reg).lookup
          (g2.derivedName name) =
        some { level := g1.low_level,
               handlers := g1.plainWiring (g1.loggerKwargs name []) } := by
    rw [hd2, lookup_cons_self]
  rw [get_logger_fresh_present g2 _ name [] _ (hd2 ▸ hf2) hlook]
  rw [← hd2, getLogger_cons_self]
  refine ⟨by simp [Gogo.wireInto, hk1, hk2], ?_, ?_⟩
  · simp only [Gogo.wireInto, hk1, hk2, List.length_append]
    rw [plainWiring_eq, plainWiring_eq]
    rfl
  · exact mkGogo_ok_loggers

theorem lookup_eq_none_of_not_mem_keys {β : Type} (l : List (String × β))
    (k : String) (h : k ∉ l.map Prod.fst) : l.lookup k = none := by
  induction l with
  | nil => rfl
  | cons p t ih =>
    simp only [List.map_cons, List.mem_cons, not_or] at h
    rw [show p = (p.1, p.2) from rfl, List.lookup_cons]
    have : (k == p.1) = false := beq_false_of_ne h.1
    rw [this]
    exact ih h.2

theorem lookup_append {β : Type} (l1 l2 : List (String × β)) (k : String) :
    (l1 ++ l2).lookup k = (l1.lookup k).or (l2.lookup k) := by
  induction l1 with
  | nil => rfl
  | cons p t ih =>
    rw [List.cons_append, show p = (p.1, p.2) from rfl, List.lookup_cons,
      List.lookup_cons]
    cases h : (k == p.1) <;> simp [ih]

theorem lookup_map_value {β γ : Type} (l : List (String × β))
    (g : String → β → γ) (k : String) :
    (l.map (fun p => (p.1, g p.1 p.2))).lookup k = (l.lookup k).map (g k) := by
  induction l with
  | nil => rfl
  | cons p t ih =>
    rw [List.map_cons, List.lookup_cons,
      show p = (p.1, p.2) from rfl, List.lookup_cons]
    cases h : (k == p.1) with
    | false => simpa using ih
    | true =>
      have : k = p.1 := eq_of_beq h
      simp [this]

theorem lookup_filter_of_key {β : Type} (l : List (String × β))
    (q : String × β → Bool) (k : String) (hall : ∀ v, q (k, v) = true) :
    (l.filter q).lookup k = l.lookup k := by
  induction l with
  | nil => rfl
  | cons p t ih =>
    by_cases hk : k = p.1
    · have hq : q p = true := by
        rw [show p = (p.1, p.2) from rfl, ← hk]
        exact hall p.2
      rw [List.filter_cons, if_pos hq, show p = (p.1, p.2) from rfl,
        List.lookup_cons, List.lookup_cons]
      cases h : (k == p.1)
      · exact absurd hk (ne_of_beq_false h)
      · rfl
    · rw [List.filter_cons]
      have hb : (k == p.1) = false := beq_false_of_ne hk
      cases hq : q p
      · rw [if_neg (by simp)]
        rw [show p = (p.1, p.2) from rfl, List.lookup_cons, hb, ih]
      · rw [if_pos rfl, show p = (p.1, p.2) from rfl, List.lookup_cons,
          List.lookup_cons, hb, ih]

theorem lookup_filter_none {β : Type} (l : List (String × β))
    (q : String × β → Bool) (k : String) (h : l.lookup k = none) :
    (l.filter q).lookup k = none := by
  induction l with
  | nil => rfl
  | cons p t ih =>
    rw [show p = (p.1, p.2) from rfl, List.lookup_cons] at h
    cases hb : (k == p.1) with
    | true =>
      rw [hb] at h
      exact Option.noConfusion h
    | false =>
      rw [hb] at h
      rw [List.filter_cons]
      cases hq : q (p.1, p.2)
      · rw [if_neg (by simp)]
        exact ih h
      · rw [if_pos rfl, List.lookup_cons, hb]
        exact ih h

theorem char_toNat_lt (c : Char) : c.toNat < 1114112 := by
  have h := c.valid
  rw [Char.toNat]
  rcases h with h | ⟨h1, h2⟩ <;> omega

theorem char_toNat_inj {c d : Char} (h : c.toNat = d.toNat) : c = d :=
  Char.eq_of_val_eq (UInt32.ext h)

theorem strN_data_inj : ∀ l1 l2 : List Char,
    l1.foldr (fun c acc => (c.toNat + 1) + 1114113 * acc) 0 =
      l2.foldr (fun c acc => (c.toNat + 1) + 1114113 * acc) 0 →
    l1 = l2 := by
  intro l1
  induction l1 with
  | nil =>
    intro l2 h
    cases l2 with
    | nil => rfl
    | cons d u =>
      exfalso
      simp only [List.foldr_nil, List.foldr_cons] at h
      omega
  | cons c t ih =>
    intro l2 h
    cases l2 with
    | nil =>
      exfalso
      simp only [List.foldr_nil, List.foldr_cons] at h
      omega
    | cons d u =>
      simp only [List.foldr_cons] at h
      have hc := char_toNat_lt c
      have hd := char_toNat_lt d
      have h1 : c.toNat = d.toNat := by omega
      have h2 : t.foldr (fun c acc => (c.toNat + 1) + 1114113 * acc) 0 =
          u.foldr (fun c acc => (c.toNat + 1) + 1114113 * acc) 0 := by omega
      rw [char_toNat_inj h1, ih u h2]

theorem strN_inj {s1 s2 : String} (h : strN s1 = strN s2) : s1 = s2 :=
  String.ext (strN_data_inj s1.data s2.data h)

theorem pairN_inj {p q : String × String} (h : pairN p = pairN q) : p = q := by
  unfold pairN at h
  rw [Nat.pair_eq_pair] at h
  exact Prod.ext (strN_inj h.1) (strN_inj h.2)

theorem ctxN_inj : ∀ l1 l2 : List (String × String),
    ctxN l1 = ctxN l2 → l1 = l2 := by
  intro l1
  induction l1 with
  | nil =>
    intro l2 h
    cases l2 with
    | nil => rfl
    | cons q u => exact absurd h.symm (Nat.succ_ne_zero _)
  | cons p t ih =>
    intro l2 h
    cases l2 with
    | nil => exact absurd h (Nat.succ_ne_zero _)
    | cons q u =>
      unfold ctxN at h
      have h' := Nat.succ_injective h
      rw [Nat.pair_eq_pair] at h'
      rw [pairN_inj h'.1, ih u h'.2]

theorem digitChar_inj10 : ∀ a < 10, ∀ b < 10,
    Nat.digitChar a = Nat.digitChar b → a = b := by decide

theorem natDigitsAux_inj : ∀ (f1 : Nat) {n f2 m : Nat}, n ≤ f1 → m ≤ f2 →
    natDigitsAux f1 n = natDigitsAux f2 m → n = m := by
  intro f1
  induction f1 with
  | zero =>
    intro n f2 m hn hm h
    have hn0 : n = 0 := Nat.le_zero.mp hn
    subst hn0
    cases m with
    | zero => rfl
    | succ m' =>
      cases f2 with
      | zero => omega
      | succ f2' =>
        rw [show natDigitsAux 0 0 = [] from rfl] at h
        exact List.noConfusion h
  | succ f ih =>
    intro n f2 m hn hm h
    cases n with
    | zero =>
      rw [show natDigitsAux (f + 1) 0 = [] from rfl] at h
      cases m with
      | zero => rfl
      | succ m' =>
        cases f2 with
        | zero => omega
        | succ f2' => exact List.noConfusion h
    | succ n' =>
      cases m with
      | zero =>
        cases f2 with
        | zero =>
          rw [show natDigitsAux 0 0 = [] from rfl] at h
          exact List.noConfusion h
        | succ f2' =>
          rw [show natDigitsAux (f2' + 1) 0 = [] from rfl] at h
          exact List.noConfusion h
      | succ m' =>
        cases f2 with
        | zero => omega
        | succ f2' =>
          rw [show natDigitsAux (f + 1) (n' + 1) =
                Nat.digitChar ((n' + 1) % 10) ::
                  natDigitsAux f ((n' + 1) / 10) from rfl,
              show natDigitsAux (f2' + 1) (m' + 1) =
                Nat.digitChar ((m' + 1) % 10) ::
                  natDigitsAux f2' ((m' + 1) / 10) from rfl] at h
          injection h with h1 h2
          have hm1 : (n' + 1) % 10 = (m' + 1) % 10 :=
            digitChar_inj10 _ (Nat.mod_lt _ (by omega)) _
              (Nat.mod_lt _ (by omega)) h1
          have hb1 : (n' + 1) / 10 ≤ f := by
            have := Nat.div_lt_self (Nat.succ_pos n') (by omega : 1 < 10)
            omega
          have hb2 : (m' + 1) / 10 ≤ f2' := by
            have := Nat.div_lt_self (Nat.succ_pos m') (by omega : 1 < 10)
            omega
          have hdiv := ih hb1 hb2 h2
          have e1 := Nat.div_add_mod (n' + 1) 10
          have e2 := Nat.div_add_mod (m' + 1) 10
          omega

theorem natDigitStr_inj {n m : Nat} (h : natDigitStr n = natDigitStr m) :
    n = m :=
  natDigitsAux_inj n (Nat.le_refl n) (Nat.le_refl m)
    (congrArg String.data h)

theorem md5_hexdigest_inj {a b : List (String × String)}
    (h : md5_hexdigest a = md5_hexdigest b) : a = b :=
  ctxN_inj a b (natDigitStr_inj h)

theorem string_append_cancel_left {a b c : String} (h : a ++ b = a ++ c) :
    b = c := by
  apply String.ext
  have hd := congrArg String.data h
  rw [String.data_append, String.data_append] at hd
  exact List.append_cancel_left hd

theorem pyFrozenset_perm (l : List (String × String)) : (pyFrozenset l).Perm l :=
  List.perm_insertionSort keyLE l

theorem sorted_keyLT_of_sorted_keyLE (l : List (String × String))
    (hs : List.Sorted keyLE l) (hnd : (l.map Prod.fst).Nodup) :
    List.Sorted keyLT l := by
  have hpw : l.Pairwise (fun p q : String × String => p.1 ≠ q.1) :=
    List.pairwise_map.mp hnd
  exact (hs.and hpw).imp
    (fun h => Nat.lt_of_le_of_ne h.1 (fun e => h.2 (strN_inj e)))

/-- Canonical enumeration of a context mapping with distinct keys: a function
of the contents alone (any permutation yields the same enumeration). -/
theorem pyFrozenset_eq_of_perm (l1 l2 : List (String × String))
    (hn : (l1.map Prod.fst).Nodup) (hp : l1.Perm l2) :
    pyFrozenset l1 = pyFrozenset l2 := by
  have hperm1 := pyFrozenset_perm l1
  have hperm2 := pyFrozenset_perm l2
  have hn2 : (l2.map Prod.fst).Nodup := ((hp.map Prod.fst).nodup_iff).mp hn
  have hnk1 : ((pyFrozenset l1).map Prod.fst).Nodup :=
    ((hperm1.map Prod.fst).nodup_iff).mpr hn
  have hnk2 : ((pyFrozenset l2).map Prod.fst).Nodup :=
    ((hperm2.map Prod.fst).nodup_iff).mpr hn2
  exact List.eq_of_perm_of_sorted (hperm1.trans (hp.trans hperm2.symm))
    (sorted_keyLT_of_sorted_keyLE _ (List.sorted_insertionSort keyLE l1) hnk1)
    (sorted_keyLT_of_sorted_keyLE _ (List.sorted_insertionSort keyLE l2) hnk2)

theorem map_fst_filter_key {β : Type} (l : List (String × β))
    (q : String → Bool) :
    (l.filter (fun p => q p.1)).map Prod.fst = (l.map Prod.fst).filter q := by
  induction l with
  | nil => rfl
  | cons p t ih =>
    rw [List.filter_cons, List.map_cons, List.filter_cons]
    cases hq : q p.1 <;> simp [hq, ih]

/-- C6.  Structured record contents and order, for every structured-adapter
emission — including emissions whose base context or call-time extra tries
to bind the reserved `message` key: the serialized record binds `message`
to the rendered message, and the reserved field occurs exactly once (no
base-context or call-time key overrides it); every other key resolves to
the call-time extra value when one was supplied and to the base-context
value otherwise (call-site wins on collision); and the field order is the
base-context fields, then `message`, then the call-time extra fields not
already named by the base context. -/
theorem structured_record_contents (base extra : List (String × String))
    (msg : String) :
    (mergeStructured base msg extra).map Prod.fst =
      (base.map Prod.fst).filter (fun k => k ≠ "message") ++ ["message"] ++
        (extra.filter (fun p =>
          p.1 ≠ "message" ∧ base.lookup p.1 = none)).map Prod.fst ∧
    ((mergeStructured base msg extra).map Prod.fst).count "message" = 1 ∧
    (mergeStructured base msg extra).lookup "message" = some msg ∧
    (∀ k, k ≠ "message" →
      (mergeStructured base msg extra).lookup k =
        (extra.lookup k).or (base.lookup k)) := by
  have hbk : ∀ k : String, k ≠ "message" →
      (base.filter (fun p => p.1 ≠ "message")).lookup k = base.lookup k :=
    fun k hk => lookup_filter_of_key _ _ _ (fun v => by simp [hk])
  have hek : ∀ k : String, k ≠ "message" →
      (extra.filter (fun p => p.1 ≠ "message")).lookup k = extra.lookup k :=
    fun k hk => lookup_filter_of_key _ _ _ (fun v => by simp [hk])
  have hthird : (extra.filter (fun p => p.1 ≠ "message")).filter
        (fun p =>
          ((base.filter (fun p => p.1 ≠ "message")).lookup p.1).isNone) =
      extra.filter (fun p => p.1 ≠ "message" ∧ base.lookup p.1 = none) := by
    rw [List.filter_filter]
    apply List.filter_congr
    intro p _
    by_cases hpm : p.1 = "message"
    · simp [hpm]
    · rw [hbk p.1 hpm]
      cases hb : base.lookup p.1 <;> simp [hpm, hb]
  have horder : (mergeStructured base msg extra).map Prod.fst =
      (base.map Prod.fst).filter (fun k => k ≠ "message") ++ ["message"] ++
        (extra.filter (fun p =>
          p.1 ≠ "message" ∧ base.lookup p.1 = none)).map Prod.fst := by
    simp only [mergeStructured]
    rw [hthird]
    simp only [List.map_append, List.map_map]
    rw [show (Prod.fst ∘ fun p : String × String =>
          (p.1, ((extra.filter (fun p => p.1 ≠ "message")).lookup
            p.1).getD p.2)) = Prod.fst from rfl,
      map_fst_filter_key base (fun k => decide (k ≠ "message"))]
    rfl
  refine ⟨horder, ?_, ?_, ?_⟩
  · rw [horder, List.count_append, List.count_append]
    have hA : List.count "message"
        ((base.map Prod.fst).filter (fun k => k ≠ "message")) = 0 :=
      List.count_eq_zero.mpr (fun h => by
        have := (List.mem_filter.mp h).2
        simp at this)
    have hB : List.count "message"
        ((extra.filter (fun p =>
          p.1 ≠ "message" ∧ base.lookup p.1 = none)).map Prod.fst) = 0 :=
      List.count_eq_zero.mpr (fun h => by
        rcases List.mem_map.mp h with ⟨p, hp, hfst⟩
        have hpred := (List.mem_filter.mp hp).2
        rw [hfst] at hpred
        simp at hpred)
    rw [hA, hB]
    rfl
  · unfold mergeStructured
    rw [lookup_append, lookup_append]
    rw [lookup_eq_none_of_not_mem_keys _ _ (by
      simp [List.map_map, Function.comp])]
    rfl
  · intro k hk
    have hmsg : List.lookup k [("message", msg)] = none := by
      rw [List.lookup_cons, beq_false_of_ne hk]
      rfl
    unfold mergeStructured
    rw [lookup_append, lookup_append, hmsg]
    rw [show ((base.filter (fun p => p.1 ≠ "message")).map
          fun p => (p.1,
            ((extra.filter (fun p => p.1 ≠ "message")).lookup p.1).getD p.2)) =
          ((base.filter (fun p => p.1 ≠ "message")).map
          fun p => (p.1,
            (fun a b =>
              ((extra.filter (fun p => p.1 ≠ "message")).lookup a).getD b)
              p.1 p.2)) from rfl,
      lookup_map_value (base.filter (fun p => p.1 ≠ "message"))
        (fun a b =>
          ((extra.filter (fun p => p.1 ≠ "message")).lookup a).getD b) k]
    simp only [hbk k hk, hek k hk]
    cases hex : extra.lookup k with
    | some v =>
      cases hba : base.lookup k with
      | some w => simp [hex, hba]
      | none =>
        rw [lookup_filter_of_key _ _ _
            (fun _ => by rw [hbk k hk, hba]; rfl),
          hek k hk, hex]
        simp [hba]
    | none =>
      cases hba : base.lookup k with
      | some w => simp [hex, hba]
      | none =>
        rw [lookup_filter_none _ _ _ (by rw [hek k hk]; exact hex)]
        simp [hex, hba]

/-- After any `get_structured_logger` call the derived name is a known
logger name of the router and is registered. -/
theorem get_structured_logger_mem (g : Gogo) (reg : Registry)
    (name : Option String) (kwargs : List (String × String)) :
    g.structuredName name kwargs ∈
      (g.get_structured_logger reg name kwargs).1.loggers ∧
    (((g.get_structured_logger reg name kwargs).2.1).lookup
      (g.structuredName name kwargs)).isSome = true := by
  unfold Gogo.get_structured_logger Registry.ensure
  by_cases hmem : g.structuredName name kwargs ∈ g.loggers <;>
    by_cases hsome : (reg.lookup (g.structuredName name kwargs)).isSome <;>
    simp [hmem, hsome, lookup_cons_self]

/-- A `get_structured_logger` call for an already known, already registered
derived name is a no-op on both the router and the registry. -/
theorem get_structured_logger_known (g : Gogo) (reg : Registry)
    (name : Option String) (kwargs : List (String × String))
    (hmem : g.structuredName name kwargs ∈ g.loggers)
    (hsome : (reg.lookup (g.structuredName name kwargs)).isSome) :
    g.get_structured_logger reg name kwargs =
      (g, reg, ⟨g.structuredName name kwargs, kwargs⟩) := by
  unfold Gogo.get_structured_logger Registry.ensure
  simp [hmem, hsome]

/-- `get_structured_logger` never changes the router's own name. -/
theorem get_structured_logger_name (g : Gogo) (reg : Registry)
    (name : Option String) (kwargs : List (String × String)) :
    (g.get_structured_logger reg name kwargs).1.name = g.name := by
  unfold Gogo.get_structured_logger Registry.ensure
  by_cases hmem : g.structuredName name kwargs ∈ g.loggers <;> simp [hmem]

/-- The derived structured name depends on the router only through its
name. -/
theorem structuredName_congr (g1 g2 : Gogo) (name : Option String)
    (kwargs : List (String × String)) (h : g1.name = g2.name) :
    g1.structuredName name kwargs = g2.structuredName name kwargs := by
  unfold Gogo.structuredName
  rw [h]

/-- The adapter returned by `get_structured_logger` wraps the logger
registered under the derived name. -/
theorem get_structured_logger_adapter (g : Gogo) (reg : Registry)
    (name : Option String) (kwargs : List (String × String)) :
    (g.get_structured_logger reg name kwargs).2.2 =
      ⟨g.structuredName name kwargs, kwargs⟩ := by
  unfold Gogo.get_structured_logger
  by_cases hmem : g.structuredName name kwargs ∈ g.loggers <;> simp [hmem]

/-- C7.  Context-derived name determinism: for context mappings with
distinct keys, two auto-named structured adapters derive the same logger
name exactly when their contexts hold the same key/value pairs (in any
order); and when they do, requesting the second adapter after the first
returns an adapter over the same underlying wired logger while changing
neither the router state nor the registry — no duplicate sink attachment. -/
theorem context_name_determinism (g : Gogo) (reg : Registry)
    (k1 k2 : List (String × String))
    (h1 : (k1.map Prod.fst).Nodup) (_h2 : (k2.map Prod.fst).Nodup) :
    (g.structuredName none k1 = g.structuredName none k2 ↔ k1.Perm k2) ∧
    (k1.Perm k2 →
      ((g.get_structured_logger reg none k1).1.get_structured_logger
          (g.get_structured_logger reg none k1).2.1 none k2).2.2.loggerName =
        (g.get_structured_logger reg none k1).2.2.loggerName ∧
      ((g.get_structured_logger reg none k1).1.get_structured_logger
          (g.get_structured_logger reg none k1).2.1 none k2).1 =
        (g.get_structured_logger reg none k1).1 ∧
      ((g.get_structured_logger reg none k1).1.get_structured_logger
          (g.get_structured_logger reg none k1).2.1 none k2).2.1 =
        (g.get_structured_logger reg none k1).2.1) := by
  have hiff : g.structuredName none k1 = g.structuredName none k2 ↔ k1.Perm k2 := by
    constructor
    · intro h
      unfold Gogo.structuredName strOr at h
      have hdig := string_append_cancel_left h
      have hfs := md5_hexdigest_inj hdig
      have hx := pyFrozenset_perm k2
      rw [← hfs] at hx
      exact (pyFrozenset_perm k1).symm.trans hx
    · intro hp
      unfold Gogo.structuredName strOr
      rw [pyFrozenset_eq_of_perm k1 k2 h1 hp]
  refine ⟨hiff, fun hp => ?_⟩
  set g1 := (g.get_structured_logger reg none k1).1 with hg1
  set reg1 := (g.get_structured_logger reg none k1).2.1 with hreg1
  have hnames : g1.structuredName none k2 = g.structuredName none k1 := by
    rw [structuredName_congr g1 g none k2
      (get_structured_logger_name g reg none k1)]
    exact (hiff.mpr hp).symm
  have hmem : g1.structuredName none k2 ∈ g1.loggers := by
    rw [hnames]
    exact (get_structured_logger_mem g reg none k1).1
  have hsome : ((reg1).lookup (g1.structuredName none k2)).isSome := by
    rw [hnames]
    exact (get_structured_logger_mem g reg none k1).2
  rw [get_structured_logger_known g1 reg1 none k2 hmem hsome]
  refine ⟨?_, rfl, rfl⟩
  rw [get_structured_logger_adapter g reg none k1]
  exact hnames

/-- C7 witness: the contexts `[ip=1.1.1.1, port=80]` and
`[port=80, ip=1.1.1.1]` (same pairs, swapped order) on a default router. -/
theorem context_name_determinism_witness :
    ((Gogo.structuredName { name := "root", high_level := 30, low_level := 10 }
        none [("ip", "1.1.1.1"), ("port", "80")] =
      Gogo.structuredName { name := "root", high_level := 30, low_level := 10 }
        none [("port", "80"), ("ip", "1.1.1.1")] ↔
      List.Perm [("ip", "1.1.1.1"), ("port", "80")]
        [("port", "80"), ("ip", "1.1.1.1")]) ∧
    (List.Perm [("ip", "1.1.1.1"), ("port", "80")]
        [("port", "80"), ("ip", "1.1.1.1")] →
      ((Gogo.get_structured_logger
          { name := "root", high_level := 30, low_level := 10 } [] none
          [("ip", "1.1.1.1"), ("port", "80")]).1.get_structured_logger
          (Gogo.get_structured_logger
            { name := "root", high_level := 30, low_level := 10 } [] none
            [("ip", "1.1.1.1"), ("port", "80")]).2.1 none
          [("port", "80"), ("ip", "1.1.1.1")]).2.2.loggerName =
        (Gogo.get_structured_logger
          { name := "root", high_level := 30, low_level := 10 } [] none
          [("ip", "1.1.1.1"), ("port", "80")]).2.2.loggerName ∧
      ((Gogo.get_structured_logger
          { name := "root", high_level := 30, low_level := 10 } [] none
          [("ip", "1.1.1.1"), ("port", "80")]).1.get_structured_logger
          (Gogo.get_structured_logger
            { name := "root", high_level := 30, low_level := 10 } [] none
            [("ip", "1.1.1.1"), ("port", "80")]).2.1 none
          [("port", "80"), ("ip", "1.1.1.1")]).1 =
        (Gogo.get_structured_logger
          { name := "root", high_level := 30, low_level := 10 } [] none
          [("ip", "1.1.1.1"), ("port", "80")]).1 ∧
      ((Gogo.get_structured_logger
          { name := "root", high_level := 30, low_level := 10 } [] none
          [("ip", "1.1.1.1"), ("port", "80")]).1.get_structured_logger
          (Gogo.get_structured_logger
            { name := "root", high_level := 30, low_level := 10 } [] none
            [("ip", "1.1.1.1"), ("port", "80")]).2.1 none
          [("port", "80"), ("ip", "1.1.1.1")]).2.1 =
        (Gogo.get_structured_logger
          { name := "root", high_level := 30, low_level := 10 } [] none
          [("ip", "1.1.1.1"), ("port", "80")]).2.1)) :=
  context_name_determinism { name := "root", high_level := 30, low_level := 10 }
    [] [("ip", "1.1.1.1"), ("port", "80")] [("port", "80"), ("ip", "1.1.1.1")]
    (by decide) (by decide)

/-- C10 witness: two default-configured routers named `root` each wiring
`base` leave the shared logger with four handlers. -/
theorem per_router_idempotence_witness :
    (Registry.getLogger
        (Gogo.get_logger { name := "root", high_level := 30, low_level := 10 }
          (Gogo.get_logger { name := "root", high_level := 30, low_level := 10 }
            [] "base" []).2.1 "base" []).2.1
        (Gogo.derivedName { name := "root", high_level := 30, low_level := 10 }
          "base")).handlers =
      Gogo.plainWiring { name := "root", high_level := 30, low_level := 10 } [] ++
        Gogo.plainWiring { name := "root", high_level := 30, low_level := 10 } [] ∧
    (Registry.getLogger
        (Gogo.get_logger { name := "root", high_level := 30, low_level := 10 }
          (Gogo.get_logger { name := "root", high_level := 30, low_level := 10 }
            [] "base" []).2.1 "base" []).2.1
        (Gogo.derivedName { name := "root", high_level := 30, low_level := 10 }
          "base")).handlers.length = 4 ∧
    (∀ (a : GogoArgs) (g0 : Gogo), mkGogo a = .ok g0 → g0.loggers = []) :=
  per_router_idempotence
    { name := "root", high_level := 30, low_level := 10 }
    { name := "root", high_level := 30, low_level := 10 }
    [] "base" rfl (by decide) (by decide) rfl

theorem getD_set_ne {α : Type} (l : List α) (i j : Nat) (a : α) (d : α)
    (h : i ≠ j) : (l.set i a).getD j d = l.getD j d := by
  unfold List.getD
  rw [List.get?_eq_getElem?, List.get?_eq_getElem?, List.getElem?_set_ne h]

theorem getD_append_lt {α : Type} (l m : List α) (i : Nat) (d : α)
    (h : i < l.length) : (l ++ m).getD i d = l.getD i d := by
  unfold List.getD
  rw [List.get?_eq_getElem?, List.get?_eq_getElem?, List.getElem?_append,
    if_pos h]

theorem updateHdlrH_heap_length (g : Gogo) (st : FilterHeap) (h : HHandler)
    (level : Nat) (fmtr : Option Formatter) (monolog : Bool)
    (kwargs : List (String × String)) :
    ((updateHdlrH g st h level fmtr monolog kwargs).1).cells.length =
      st.cells.length := by
  unfold updateHdlrH FilterHeap.write
  by_cases hm : monolog <;> by_cases hk : kwargs.isEmpty <;>
    simp [hm, hk, List.length_set]

theorem updateHdlrH_ref (g : Gogo) (st : FilterHeap) (h : HHandler)
    (level : Nat) (fmtr : Option Formatter) (monolog : Bool)
    (kwargs : List (String × String)) :
    ((updateHdlrH g st h level fmtr monolog kwargs).2).filtersRef =
      h.filtersRef := by
  unfold updateHdlrH
  by_cases hm : monolog <;> by_cases hk : kwargs.isEmpty <;> simp [hm, hk]

theorem updateHdlrH_read_ne (g : Gogo) (st : FilterHeap) (h : HHandler)
    (level : Nat) (fmtr : Option Formatter) (monolog : Bool)
    (kwargs : List (String × String)) (r : Nat) (hr : r ≠ h.filtersRef) :
    ((updateHdlrH g st h level fmtr monolog kwargs).1).read r = st.read r := by
  unfold updateHdlrH FilterHeap.write FilterHeap.read
  by_cases hm : monolog <;> by_cases hk : kwargs.isEmpty <;>
    simp only [hm, hk, if_true, if_false, Bool.false_eq_true, ite_true,
      ite_false] <;>
    repeat rw [getD_set_ne _ _ _ _ _ (fun e => hr e.symm)]

theorem copyHdlrH_heap_length (st : FilterHeap) (h : HHandler) :
    ((copyHdlrH st h).1).cells.length = st.cells.length + 1 := by
  unfold copyHdlrH FilterHeap.alloc
  simp

theorem copyHdlrH_ref (st : FilterHeap) (h : HHandler) :
    ((copyHdlrH st h).2).filtersRef = st.cells.length := rfl

theorem copyHdlrH_read_lt (st : FilterHeap) (h : HHandler) (r : Nat)
    (hr : r < st.cells.length) :
    ((copyHdlrH st h).1).read r = st.read r := by
  unfold copyHdlrH FilterHeap.alloc FilterHeap.read
  exact getD_append_lt _ _ _ _ hr

theorem wireOneH_heap_length (g : Gogo) (st : FilterHeap) (h : HHandler)
    (level : Nat) (fmtr : Option Formatter) (monolog : Bool)
    (kwargs : List (String × String)) :
    ((wireOneH g st h level fmtr monolog kwargs).1).cells.length =
      st.cells.length + 1 := by
  unfold wireOneH
  rw [updateHdlrH_heap_length, copyHdlrH_heap_length]

theorem wireOneH_ref (g : Gogo) (st : FilterHeap) (h : HHandler)
    (level : Nat) (fmtr : Option Formatter) (monolog : Bool)
    (kwargs : List (String × String)) :
    ((wireOneH g st h level fmtr monolog kwargs).2).filtersRef =
      st.cells.length := by
  unfold wireOneH
  rw [updateHdlrH_ref, copyHdlrH_ref]

theorem wireOneH_read_lt (g : Gogo) (st : FilterHeap) (h : HHandler)
    (level : Nat) (fmtr : Option Formatter) (monolog : Bool)
    (kwargs : List (String × String)) (r : Nat) (hr : r < st.cells.length) :
    ((wireOneH g st h level fmtr monolog kwargs).1).read r = st.read r := by
  unfold wireOneH
  rw [updateHdlrH_read_ne _ _ _ _ _ _ _ _
      (by rw [copyHdlrH_ref]; omega),
    copyHdlrH_read_lt _ _ _ hr]

/-- C9.  Copy-on-attach frame property: wiring a named logger, twice in a
row for two different loggers, never touches the filter-list cells of the
router's configured handlers (their contents — level, formatter and filter
list — are read, copied and left unchanged), and the four handler copies
attached to the two loggers hold four pairwise-distinct freshly allocated
filter-list cells, none of them shared with the router's own handlers. -/
theorem copy_on_attach (g : Gogo) (st : FilterHeap) (hi lo : HHandler)
    (kwargsA kwargsB : List (String × String))
    (hhi : hi.filtersRef < st.cells.length)
    (hlo : lo.filtersRef < st.cells.length) :
    ((wireLoggerH g (wireLoggerH g st hi lo kwargsA).1 hi lo kwargsB).1).read
        hi.filtersRef = st.read hi.filtersRef ∧
    ((wireLoggerH g (wireLoggerH g st hi lo kwargsA).1 hi lo kwargsB).1).read
        lo.filtersRef = st.read lo.filtersRef ∧
    [(wireLoggerH g st hi lo kwargsA).2.1.filtersRef,
     (wireLoggerH g st hi lo kwargsA).2.2.filtersRef,
     (wireLoggerH g (wireLoggerH g st hi lo kwargsA).1 hi lo
        kwargsB).2.1.filtersRef,
     (wireLoggerH g (wireLoggerH g st hi lo kwargsA).1 hi lo
        kwargsB).2.2.filtersRef].Nodup ∧
    (∀ r ∈ [(wireLoggerH g st hi lo kwargsA).2.1.filtersRef,
            (wireLoggerH g st hi lo kwargsA).2.2.filtersRef,
            (wireLoggerH g (wireLoggerH g st hi lo kwargsA).1 hi lo
               kwargsB).2.1.filtersRef,
            (wireLoggerH g (wireLoggerH g st hi lo kwargsA).1 hi lo
               kwargsB).2.2.filtersRef],
      r ≠ hi.filtersRef ∧ r ≠ lo.filtersRef) := by
  set L := st.cells.length with hL
  unfold wireLoggerH
  simp only []
  have l1 : ((wireOneH g st hi g.high_level g.high_formatter false
      kwargsA).1).cells.length = L + 1 := wireOneH_heap_length ..
  have r1 : ((wireOneH g st hi g.high_level g.high_formatter false
      kwargsA).2).filtersRef = L := wireOneH_ref ..
  have l2 : ((wireOneH g (wireOneH g st hi g.high_level g.high_formatter
      false kwargsA).1 lo g.low_level g.low_formatter g.monolog
      kwargsA).1).cells.length = L + 2 := by
    rw [wireOneH_heap_length, l1]
  have r2 : ((wireOneH g (wireOneH g st hi g.high_level g.high_formatter
      false kwargsA).1 lo g.low_level g.low_formatter g.monolog
      kwargsA).2).filtersRef = L + 1 := by
    rw [wireOneH_ref, l1]
  have l3 : ((wireOneH g (wireOneH g (wireOneH g st hi g.high_level
      g.high_formatter false kwargsA).1 lo g.low_level g.low_formatter
      g.monolog kwargsA).1 hi g.high_level g.high_formatter false
      kwargsB).1).cells.length = L + 3 := by
    rw [wireOneH_heap_length, l2]
  have r3 : ((wireOneH g (wireOneH g (wireOneH g st hi g.high_level
      g.high_formatter false kwargsA).1 lo g.low_level g.low_formatter
      g.monolog kwargsA).1 hi g.high_level g.high_formatter false
      kwargsB).2).filtersRef = L + 2 := by
    rw [wireOneH_ref, l2]
  have r4 : ((wireOneH g (wireOneH g (wireOneH g (wireOneH g st hi
      g.high_level g.high_formatter false kwargsA).1 lo g.low_level
      g.low_formatter g.monolog kwargsA).1 hi g.high_level g.high_formatter
      false kwargsB).1 lo g.low_level g.low_formatter g.monolog
      kwargsB).2).filtersRef = L + 3 := by
    rw [wireOneH_ref, l3]
  have hread : ∀ r, r < L →
      ((wireOneH g (wireOneH g (wireOneH g (wireOneH g st hi g.high_level
        g.high_formatter false kwargsA).1 lo g.low_level g.low_formatter
        g.monolog kwargsA).1 hi g.high_level g.high_formatter false
        kwargsB).1 lo g.low_level g.low_formatter g.monolog kwargsB).1).read
        r = st.read r := by
    intro r hr
    rw [wireOneH_read_lt _ _ _ _ _ _ _ _ (by rw [l3]; omega)]
    rw [wireOneH_read_lt _ _ _ _ _ _ _ _ (by rw [l2]; omega)]
    rw [wireOneH_read_lt _ _ _ _ _ _ _ _ (by rw [l1]; omega)]
    rw [wireOneH_read_lt _ _ _ _ _ _ _ _ (by rw [← hL]; omega)]
  refine ⟨hread _ hhi, hread _ hlo, ?_, ?_⟩
  · rw [r1, r2, r3, r4]
    simp
  · intro r hr
    simp only [List.mem_cons, List.not_mem_nil, or_false] at hr
    rcases hr with h | h | h | h <;> rw [h] <;>
      first
        | (rw [r1]; omega)
        | (rw [r2]; omega)
        | (rw [r3]; omega)
        | (rw [r4]; omega)

/-- C9 witness: a two-cell heap holding the router's own high/low filter
lists, default-level router, two context-free wiring rounds. -/
theorem copy_on_attach_witness :
    ((wireLoggerH { name := "root", high_level := 30, low_level := 10 }
        (wireLoggerH { name := "root", high_level := 30, low_level := 10 }
          ⟨[[], []]⟩ ⟨Sink.stderr, 0, none, 0⟩ ⟨Sink.stdout, 0, none, 1⟩
          []).1 ⟨Sink.stderr, 0, none, 0⟩ ⟨Sink.stdout, 0, none, 1⟩
        []).1).read
        (HHandler.filtersRef ⟨Sink.stderr, 0, none, 0⟩) =
      FilterHeap.read ⟨[[], []]⟩
        (HHandler.filtersRef ⟨Sink.stderr, 0, none, 0⟩) ∧
    ((wireLoggerH { name := "root", high_level := 30, low_level := 10 }
        (wireLoggerH { name := "root", high_level := 30, low_level := 10 }
          ⟨[[], []]⟩ ⟨Sink.stderr, 0, none, 0⟩ ⟨Sink.stdout, 0, none, 1⟩
          []).1 ⟨Sink.stderr, 0, none, 0⟩ ⟨Sink.stdout, 0, none, 1⟩
        []).1).read
        (HHandler.filtersRef ⟨Sink.stdout, 0, none, 1⟩) =
      FilterHeap.read ⟨[[], []]⟩
        (HHandler.filtersRef ⟨Sink.stdout, 0, none, 1⟩) ∧
    [(wireLoggerH { name := "root", high_level := 30, low_level := 10 }
        ⟨[[], []]⟩ ⟨Sink.stderr, 0, none, 0⟩ ⟨Sink.stdout, 0, none, 1⟩
        []).2.1.filtersRef,
     (wireLoggerH { name := "root", high_level := 30, low_level := 10 }
        ⟨[[], []]⟩ ⟨Sink.stderr, 0, none, 0⟩ ⟨Sink.stdout, 0, none, 1⟩
        []).2.2.filtersRef,
     (wireLoggerH { name := "root", high_level := 30, low_level := 10 }
        (wireLoggerH { name := "root", high_level := 30, low_level := 10 }
          ⟨[[], []]⟩ ⟨Sink.stderr, 0, none, 0⟩ ⟨Sink.stdout, 0, none, 1⟩
          []).1 ⟨Sink.stderr, 0, none, 0⟩ ⟨Sink.stdout, 0, none, 1⟩
        []).2.1.filtersRef,
     (wireLoggerH { name := "root", high_level := 30, low_level := 10 }
        (wireLoggerH { name := "root", high_level := 30, low_level := 10 }
          ⟨[[], []]⟩ ⟨Sink.stderr, 0, none, 0⟩ ⟨Sink.stdout, 0, none, 1⟩
          []).1 ⟨Sink.stderr, 0, none, 0⟩ ⟨Sink.stdout, 0, none, 1⟩
        []).2.2.filtersRef].Nodup ∧
    (∀ r ∈ [(wireLoggerH { name := "root", high_level := 30, low_level := 10 }
              ⟨[[], []]⟩ ⟨Sink.stderr, 0, none, 0⟩ ⟨Sink.stdout, 0, none, 1⟩
              []).2.1.filtersRef,
            (wireLoggerH { name := "root", high_level := 30, low_level := 10 }
              ⟨[[], []]⟩ ⟨Sink.stderr, 0, none, 0⟩ ⟨Sink.stdout, 0, none, 1⟩
              []).2.2.filtersRef,
            (wireLoggerH { name := "root", high_level := 30, low_level := 10 }
              (wireLoggerH
                { name := "root", high_level := 30, low_level := 10 }
                ⟨[[], []]⟩ ⟨Sink.stderr, 0, none, 0⟩
                ⟨Sink.stdout, 0, none, 1⟩ []).1 ⟨Sink.stderr, 0, none, 0⟩
              ⟨Sink.stdout, 0, none, 1⟩ []).2.1.filtersRef,
            (wireLoggerH { name := "root", high_level := 30, low_level := 10 }
              (wireLoggerH
                { name := "root", high_level := 30, low_level := 10 }
                ⟨[[], []]⟩ ⟨Sink.stderr, 0, none, 0⟩
                ⟨Sink.stdout, 0, none, 1⟩ []).1 ⟨Sink.stderr, 0, none, 0⟩
              ⟨Sink.stdout, 0, none, 1⟩ []).2.2.filtersRef],
      r ≠ HHandler.filtersRef ⟨Sink.stderr, 0, none, 0⟩ ∧
        r ≠ HHandler.filtersRef ⟨Sink.stdout, 0, none, 1⟩) :=
  copy_on_attach { name := "root", high_level := 30, low_level := 10 }
    ⟨[[], []]⟩ ⟨Sink.stderr, 0, none, 0⟩ ⟨Sink.stdout, 0, none, 1⟩ [] []
    (by decide) (by decide)

end Pygogo
